import Mathlib

/-
Verification of the taskly-api security-monitoring / session-policy subsystem.

The definitions below are a shallow embedding of:
  * src/services/securityMonitoringService.ts (class SecurityMonitoringService)
  * src/middleware/enhancedAuth.ts (requireAuth, performSecurityChecks,
    logSecurityEvent, calculateRiskScore, getAutomatedResponse,
    calculateUserAgentSimilarity)

Modelling conventions:
  * timestamps are Nat milliseconds since the Unix epoch (UTC); the JS
    Date#getHours / #getDay local-time accessors are modelled as their UTC
    counterparts (hour := t / 3600000 % 24, day := (t / 86400000 + 4) % 7);
  * the managed database is explicit state (lists of rows) threaded through
    the functions; supabase GROUP BY / HAVING queries are modelled by an
    explicit group-count over the row list;
  * JS floating-point comparisons on exact small integers
    (recent.length > average_daily_activity * 3 with
    average_daily_activity = n / 30, and similarity < 0.8) are modelled by
    the equivalent exact cross-multiplied integer comparisons;
  * the external identity verifier (supabase.auth.getUser) is an oracle
    parameter of type String -> Option String (token to user id).
-/

namespace Taskly

/-- The severity union type 'low' | 'medium' | 'high' | 'critical' used by
SecurityMonitoringService (part_005). -/
inductive Severity where
  | low
  | medium
  | high
  | critical
deriving DecidableEq, Repr

/-- Numeric rank of a severity bucket, used to state monotonicity. -/
def severityRank : Severity → Nat
  | Severity.low => 0
  | Severity.medium => 1
  | Severity.high => 2
  | Severity.critical => 3

namespace SecurityMonitoring

/-- The fields of the free-form `details` argument that
`calculateEventRiskScore` actually reads.  A missing `repeated_attempts`
behaves like the JS `undefined > 5` comparison (false). -/
structure EventDetails where
  repeated_attempts : Option Int := none
  new_device : Bool := false
  new_location : Bool := false
  off_hours : Bool := false
deriving DecidableEq, Repr

/-- The `context` argument of `calculateEventRiskScore` (not read by it). -/
structure EventContext where
  user_id : Option String := none
  session_id : Option String := none
  ip_address : Option String := none
  user_agent : Option String := none
deriving DecidableEq, Repr

/-- The static base-score table of `calculateEventRiskScore`
(`baseScores[eventType] || 30`). -/
def baseScoreOf (eventType : String) : Nat :=
  if eventType == "login_failure" then 20
  else if eventType == "brute_force_detected" then 80
  else if eventType == "suspicious_location" then 60
  else if eventType == "multiple_failed_logins" then 70
  else if eventType == "data_exfiltration_detected" then 95
  else if eventType == "malicious_payload_detected" then 90
  else if eventType == "privilege_escalation" then 85
  else if eventType == "unusual_data_access" then 50
  else if eventType == "session_hijacking" then 90
  else if eventType == "account_enumeration" then 40
  else 30

/-- SecurityMonitoringService.calculateEventRiskScore (part_005, lines
295-322): base score from the static table, additive adjustments, clamp
to 100.  The `context` parameter is accepted but never read, as in the
source. -/
def calculateEventRiskScore (eventType : String) (details : EventDetails)
    (_context : EventContext) : Nat :=
  let score := baseScoreOf eventType
  let score := score +
    (if (match details.repeated_attempts with
         | some n => decide (n > 5)
         | none => false : Bool) then 20 else 0)
  let score := score + (if details.new_device then 15 else 0)
  let score := score + (if details.new_location then 15 else 0)
  let score := score + (if details.off_hours then 10 else 0)
  min score 100

/-- SecurityMonitoringService.calculateSeverity (part_005, lines 535-540). -/
def calculateSeverity (riskScore : Nat) : Severity :=
  if riskScore ≥ 90 then Severity.critical
  else if riskScore ≥ 70 then Severity.high
  else if riskScore ≥ 50 then Severity.medium
  else Severity.low

/-- One row of the `audit_log` table, restricted to the columns the threat
sweeps read. -/
structure AuditRow where
  event_type : String
  action : String
  actor_id : Option String := none
  ip_address : Option String := none
  created_at : Nat := 0
deriving DecidableEq, Repr

/-- A SecurityAlert record (part_005, interface SecurityAlert); `details`
is flattened to the key/count pair every sweep stores there. -/
structure SecurityAlert where
  type : String
  severity : Severity
  message : String
  detailKey : Option String
  detailCount : Nat
  timestamp : Nat
deriving DecidableEq, Repr

/-- Rendering of a nullable string inside a JS template literal. -/
def jsShow (s : Option String) : String :=
  match s with
  | some v => v
  | none => "null"

/-- Model of the supabase `select(key, count(*)) ... group(key)` query: the
distinct key values of `rows`, each with the number of rows carrying it. -/
def groupCounts (key : AuditRow → Option String) (rows : List AuditRow) :
    List (Option String × Nat) :=
  ((rows.map key).dedup).map (fun k => (k, rows.countP (fun r => key r == k)))

/-- SecurityMonitoringService.detectBruteForceAttacks (part_005, lines
341-365): failed-login audit events in the window, grouped by IP, HAVING
count > 10; one high-severity alert per flagged IP. -/
def detectBruteForceAttacks (windowStart : Nat) (now : Nat)
    (rows : List AuditRow) : List SecurityAlert :=
  let failed := rows.filter (fun r =>
    r.event_type == "auth" && r.action == "login_failure" &&
      windowStart ≤ r.created_at)
  let flagged := (groupCounts (fun r => r.ip_address) failed).filter
    (fun g => 10 < g.2)
  flagged.map (fun g =>
    { type := "brute_force_ip"
      severity := Severity.high
      message := "Brute force attack detected from IP: " ++ jsShow g.1
      detailKey := g.1
      detailCount := g.2
      timestamp := now })

/-- SecurityMonitoringService.detectAccessAnomalies (part_005, lines
401-429): only when the current hour is < 6 or > 22, group login audit
events in the window by actor, HAVING count > 3; one low-severity alert
per flagged actor. -/
def detectAccessAnomalies (currentHour : Nat) (windowStart : Nat) (now : Nat)
    (rows : List AuditRow) : List SecurityAlert :=
  if currentHour < 6 ∨ currentHour > 22 then
    let logins := rows.filter (fun r =>
      r.event_type == "auth" && r.action == "login" &&
        windowStart ≤ r.created_at)
    let flagged := (groupCounts (fun r => r.actor_id) logins).filter
      (fun g => 3 < g.2)
    flagged.map (fun g =>
      { type := "unusual_access_time"
        severity := Severity.low
        message := "User " ++ jsShow g.1 ++ " accessed system " ++
          toString g.2 ++ " times during off-hours"
        detailKey := g.1
        detailCount := g.2
        timestamp := now })
  else []

/-- One audit-log row as consumed by the behaviour analytics: its creation
time and source IP. -/
structure Activity where
  created_at : Nat
  ip_address : Option String := none
deriving DecidableEq, Repr

/-- UTC model of JS Date#getHours on a millisecond timestamp. -/
def hourOf (t : Nat) : Nat := t / 3600000 % 24

/-- UTC model of JS Date#getDay (the epoch fell on a Thursday, day 4). -/
def dayOf (t : Nat) : Nat := (t / 86400000 + 4) % 7

/-- The baseline produced by calculateBehaviorBaseline.  The JS float
`average_daily_activity = activities.length / 30` is kept as its exact
numerator `baselineCount` (denominator 30). -/
structure Baseline where
  typical_hours : List Nat
  typical_days : List Nat
  typical_ips : List String
  baselineCount : Nat
deriving DecidableEq, Repr

/-- SecurityMonitoringService.calculateBehaviorBaseline (part_005, lines
617-640): hours/days with any activity, the set of seen IPs, and the
average daily activity (kept as the exact count, denominator 30). -/
def calculateBehaviorBaseline (activities : List Activity) : Baseline :=
  { typical_hours := (List.range 24).filter (fun h =>
      activities.any (fun a => hourOf a.created_at == h))
    typical_days := (List.range 7).filter (fun d =>
      activities.any (fun a => dayOf a.created_at == d))
    typical_ips := (activities.filterMap (fun a => a.ip_address)).dedup
    baselineCount := activities.length }

/-- The `unusualHours` list computed by detectBehaviorAnomalies: recent
hours not in the baseline hour set. -/
def unusualHoursOf (baseline : Baseline) (recent : List Activity) : List Nat :=
  (recent.map (fun a => hourOf a.created_at)).filter
    (fun h => !(baseline.typical_hours.contains h))

/-- The `newIPs` list computed by detectBehaviorAnomalies: distinct recent
IPs not in the baseline IP set. -/
def newIPsOf (baseline : Baseline) (recent : List Activity) : List String :=
  ((recent.filterMap (fun a => a.ip_address)).dedup).filter
    (fun ip => !(baseline.typical_ips.contains ip))

/-- The volume test of detectBehaviorAnomalies:
`recentActivity.length > average_daily_activity * 3`, cross-multiplied by
the denominator 30 (so `recent.length * 10 > baselineCount`), which is
exact for the integer counts involved. -/
def highVolume (baseline : Baseline) (recent : List Activity) : Bool :=
  baseline.baselineCount < recent.length * 10

/-- SecurityMonitoringService.detectBehaviorAnomalies (part_005, lines
642-667): pushes up to three anomaly strings. -/
def detectBehaviorAnomalies (baseline : Baseline) (recent : List Activity) :
    List String :=
  (if (unusualHoursOf baseline recent).length > 0 then
    ["Unusual access hours: " ++
      String.intercalate (", ")
        ((unusualHoursOf baseline recent).map (fun h => toString h))]
   else []) ++
  (if (newIPsOf baseline recent).length > 0 then
    ["New IP addresses: " ++ toString (newIPsOf baseline recent).length]
   else []) ++
  (if highVolume baseline recent then
    ["Unusually high activity volume"]
   else [])

/-- SecurityMonitoringService.calculateBehaviorRiskScore (part_005, lines
669-677): 10 per anomaly, +20 when recent activity exceeds 50 events,
clamped to 100. -/
def calculateBehaviorRiskScore (anomalies : List String)
    (recentActivity : List Activity) : Nat :=
  let score := anomalies.length * 10
  let score := score + (if recentActivity.length > 50 then 20 else 0)
  min score 100

/-- SecurityMonitoringService.analyzeUserBehavior (part_005, lines 116-147),
with the two audit-log reads replaced by their results (`history` for the
30-day baseline window, `recent` for the recent window). -/
def analyzeUserBehavior (history recent : List Activity) :
    Nat × List String × Baseline :=
  let baseline := calculateBehaviorBaseline history
  let anomalies := detectBehaviorAnomalies baseline recent
  let riskScore := calculateBehaviorRiskScore anomalies recent
  (riskScore, anomalies, baseline)

end SecurityMonitoring

namespace EnhancedAuth

/-- One row of the `user_sessions` table (the columns requireAuth and
performSecurityChecks read or write). -/
structure Session where
  id : Nat
  member_id : String
  session_token : String
  is_active : Bool
  expires_at : Nat
  auto_logout_at : Nat
  last_activity_at : Nat := 0
  revoked_at : Option Nat := none
  revoked_reason : Option String := none
  ip_address : Option String := none
  user_agent : Option String := none
deriving DecidableEq, Repr

/-- The part of a logSecurityEvent `details` object its callees read: the
optional free-form `severity` field. -/
structure LogDetails where
  severity : Option String := none
deriving DecidableEq, Repr

/-- One row inserted into `audit_log` by the middleware's
logSecurityEvent. -/
structure AuditEvent where
  event_type : String
  action : String
  severity : Option String
  risk_score : Nat
  created_at : Nat
deriving DecidableEq, Repr

/-- One row inserted into `security_incidents` by the middleware's
logSecurityEvent. -/
structure Incident where
  incident_type : String
  severity : String
  automated_response : String
deriving DecidableEq, Repr

/-- The database state the middleware touches. -/
structure DB where
  sessions : List Session
  audit : List AuditEvent := []
  incidents : List Incident := []
deriving DecidableEq, Repr

/-- The request data requireAuth reads. -/
structure Request where
  authHeader : Option String := none
  ip : String := ""
  userAgent : Option String := none
deriving DecidableEq, Repr

/-- calculateRiskScore (enhancedAuth.ts, lines 544-568): static base table
(default 30), severity adjustment, clamp to 100. -/
def calculateRiskScore (eventType : String) (details : LogDetails) : Nat :=
  let baseScore :=
    if eventType == "rate_limit_exceeded" then 30
    else if eventType == "invalid_token" then 40
    else if eventType == "invalid_session" then 50
    else if eventType == "permission_denied" then 20
    else if eventType == "role_denied" then 25
    else if eventType == "group_access_denied" then 35
    else if eventType == "admin_access_denied" then 60
    else if eventType == "unregistered_device" then 70
    else if eventType == "ip_address_change" then 40
    else if eventType == "multiple_active_sessions" then 80
    else if eventType == "user_agent_change" then 20
    else if eventType == "auto_logout" then 10
    else 30
  let baseScore :=
    if details.severity == some ("critical") then baseScore + 30
    else if details.severity == some ("high") then baseScore + 20
    else if details.severity == some ("medium") then baseScore + 10
    else baseScore
  min baseScore 100

/-- getAutomatedResponse (enhancedAuth.ts, lines 570-579). -/
def getAutomatedResponse (eventType : String) : String :=
  if eventType == "multiple_active_sessions" then
    "Revoked all other active sessions"
  else if eventType == "unregistered_device" then
    "Blocked access from unregistered device"
  else if eventType == "rate_limit_exceeded" then
    "Applied rate limiting"
  else if eventType == "invalid_token" then
    "Rejected request with invalid token"
  else "Logged security event"

/-- logSecurityEvent (enhancedAuth.ts, lines 515-542): append an audit_log
row with the computed risk score; for high/critical details.severity also
append a security_incidents row. -/
def logSecurityEvent (eventType : String) (details : LogDetails) (now : Nat)
    (db : DB) : DB :=
  let db := { db with audit := db.audit ++
    [{ event_type := "security"
       action := eventType
       severity := details.severity
       risk_score := calculateRiskScore eventType details
       created_at := now }] }
  if details.severity == some ("high") ∨ details.severity == some ("critical")
  then
    { db with incidents := db.incidents ++
      [{ incident_type := eventType
         severity := (details.severity).getD ("medium")
         automated_response := getAutomatedResponse eventType }] }
  else db

/-- JS `ua.toLowerCase().split(/\W+/)`: maximal word-character runs, with
one empty token at the front/back when the string starts/ends with a
non-word character (regex-split semantics), and [""] for the empty
string. -/
def jsWords (s : String) : List String :=
  if s.isEmpty then [""]
  else
    let isWordChar := fun (c : Char) => c.isAlphanum || c == '_'
    let cs := (s.toLower).data
    let toks := (((s.toLower).split (fun c => !(isWordChar c))).filter
      (fun t => !(t.isEmpty)))
    (if (match cs.head? with
         | some c => !(isWordChar c)
         | none => false : Bool) then [""] else []) ++
    toks ++
    (if (match cs.getLast? with
         | some c => !(isWordChar c)
         | none => false : Bool) then [""] else [])

/-- calculateUserAgentSimilarity (enhancedAuth.ts, lines 581-590), as the
exact Boolean `similarity < 0.8` (intersection/union < 4/5, cross-
multiplied). -/
def userAgentDissimilar (ua1 ua2 : String) : Bool :=
  let words1 := jsWords ua1
  let words2 := jsWords ua2
  let intersection := words1.filter (fun w => words2.contains w)
  let union := (words1 ++ words2).dedup
  intersection.length * 5 < union.length * 4

/-- First block of performSecurityChecks (lines 459-468): log an
`ip_address_change` event when the session's stored IP differs from the
request IP. -/
def ipChangeCheck (sess : Session) (req : Request) (now : Nat) (db : DB) :
    DB :=
  match sess.ip_address with
  | some ip =>
    if ip ≠ req.ip then
      logSecurityEvent ("ip_address_change") { severity := some ("medium") }
        now db
    else db
  | none => db

/-- Second block of performSecurityChecks (lines 470-495): when the member
has more than one active session, log a high-severity
`multiple_active_sessions` event and revoke every active session of the
member other than the current one. -/
def multiSessionCheck (userId : String) (sess : Session) (now : Nat)
    (db : DB) : DB :=
  let activeSessions := db.sessions.filter (fun s =>
    s.member_id == userId && s.is_active)
  if activeSessions.length > 1 then
    let db := logSecurityEvent ("multiple_active_sessions")
      { severity := some ("high") } now db
    { db with sessions := db.sessions.map (fun s =>
        if s.member_id == userId && s.is_active && !(s.id == sess.id) then
          { s with is_active := false
                   revoked_at := some now
                   revoked_reason := some ("multiple_sessions_detected") }
        else s) }
  else db

/-- Third block of performSecurityChecks (lines 497-512): log a
`user_agent_change` event when the user agent changed and is less than
80% similar. -/
def userAgentCheck (sess : Session) (req : Request) (now : Nat) (db : DB) :
    DB :=
  match sess.user_agent, req.userAgent with
  | some ua1, some ua2 =>
    if ua1 ≠ ua2 ∧ userAgentDissimilar ua1 ua2 then
      logSecurityEvent ("user_agent_change") { severity := some ("low") }
        now db
    else db
  | _, _ => db

/-- performSecurityChecks (enhancedAuth.ts, lines 450-513): its three
sequential blocks — IP-change logging, concurrent-session detection with
revocation of all but the current session, and user-agent-change
logging. -/
def performSecurityChecks (userId : String) (sess : Session) (req : Request)
    (now : Nat) (db : DB) : DB :=
  userAgentCheck sess req now
    (multiSessionCheck userId sess now
      (ipChangeCheck sess req now db))

/-- The outcome of the requireAuth gate (which res.status / next() call is
reached). -/
inductive AuthResult where
  | missingToken
  | invalidToken
  | invalidSession
  | sessionExpired
  | autoLogout
  | proceed (userId : String) (sessionId : Nat)
deriving DecidableEq, Repr

/-- The HTTP status code each outcome responds with (next() modelled
as 200). -/
def statusOf : AuthResult → Nat
  | AuthResult.missingToken => 401
  | AuthResult.invalidToken => 401
  | AuthResult.invalidSession => 401
  | AuthResult.sessionExpired => 401
  | AuthResult.autoLogout => 401
  | AuthResult.proceed _ _ => 200

/-- JS String#split with a single-character separator, on the character
list: splits at every separator occurrence, keeping empty chunks. -/
def splitChar (sep : Char) : List Char → List (List Char)
  | [] => [[]]
  | c :: cs =>
    if c = sep then [] :: splitChar sep cs
    else
      match splitChar sep cs with
      | [] => [[c]]
      | w :: ws => (c :: w) :: ws

/-- The header check and token extraction of requireAuth (lines 76-80):
reject a missing header or one without the `Bearer ` scheme
(startsWith modelled as equality of the first seven characters), else
take `authHeader.split(' ')[1]`. -/
def parseBearer (authHeader : Option String) : Option String :=
  match authHeader with
  | none => none
  | some h =>
    if h.data.take 7 = ("Bearer ").data then
      some (String.mk ((splitChar ' ' h.data).getD 1 []))
    else none

/-- The `.eq(member_id).eq(session_token).eq(is_active, true).single()`
session lookup (lines 98-104): `.single()` succeeds only when exactly one
row matches. -/
def sessionLookup (db : DB) (uid : String) (token : String) :
    Option Session :=
  match db.sessions.filter (fun s =>
    s.member_id == uid && s.session_token == token && s.is_active) with
  | [s] => some s
  | _ => none

/-- Revocation update used by the expiry / auto-logout branches: set
is_active false, revoked_at, revoked_reason on the row with the given
id. -/
def revokeSession (sid : Nat) (reason : String) (now : Nat) (db : DB) : DB :=
  { db with sessions := db.sessions.map (fun s =>
      if s.id == sid then
        { s with is_active := false
                 revoked_at := some now
                 revoked_reason := some reason }
      else s) }

/-- The session-activity update of the success path (lines 152-159):
last_activity_at := now, auto_logout_at := now + 30 minutes, ip_address :=
request IP. -/
def touchSession (sid : Nat) (now : Nat) (ip : String) (db : DB) : DB :=
  { db with sessions := db.sessions.map (fun s =>
      if s.id == sid then
        { s with last_activity_at := now
                 auto_logout_at := now + 30 * 60 * 1000
                 ip_address := some ip }
      else s) }

/-- requireAuth (enhancedAuth.ts, lines 73-211), through the session gate:
header parsing, identity resolution (`getUser` oracle), session lookup,
expiry check, inactivity auto-logout check, security checks, activity
update.  The subsequent profile/membership steps do not touch the session
or audit state and are outside every claim, so the gate ends in
`proceed`. -/
def requireAuth (getUser : String → Option String) (req : Request)
    (now : Nat) (db : DB) : AuthResult × DB :=
  match parseBearer req.authHeader with
  | none => (AuthResult.missingToken, db)
  | some token =>
    match getUser token with
    | none =>
      (AuthResult.invalidToken,
        logSecurityEvent ("invalid_token") { severity := none } now db)
    | some uid =>
      match sessionLookup db uid token with
      | none =>
        (AuthResult.invalidSession,
          logSecurityEvent ("invalid_session") { severity := none } now db)
      | some session =>
        if session.expires_at ≤ now then
          (AuthResult.sessionExpired,
            revokeSession session.id ("expired") now db)
        else if session.auto_logout_at ≤ now then
          let db := revokeSession session.id ("auto_logout") now db
          (AuthResult.autoLogout,
            logSecurityEvent ("auto_logout") { severity := none } now db)
        else
          let db := performSecurityChecks uid session req now db
          let db := touchSession session.id now req.ip db
          (AuthResult.proceed uid session.id, db)

end EnhancedAuth

/-! Specification-side definitions: the spec's wording of the risk-score
formula (for the refinement claim C2), count measures used to characterise
the GROUP BY / HAVING sweeps, and the concrete scenario inputs of the
spec's end-to-end properties. -/

namespace SecurityMonitoring

/-- The spec's static base-score table, as a finite mapping ("Base score
comes from a static table keyed by event-type string"). -/
def specBaseScoreTable : List (String × Nat) :=
  [("login_failure", 20),
   ("brute_force_detected", 80),
   ("suspicious_location", 60),
   ("multiple_failed_logins", 70),
   ("data_exfiltration_detected", 95),
   ("malicious_payload_detected", 90),
   ("privilege_escalation", 85),
   ("unusual_data_access", 50),
   ("session_hijacking", 90),
   ("account_enumeration", 40)]

/-- The spec's wording of the risk-score formula: table base (default 30
if unknown), plus 20 if repeated_attempts > 5, plus 15 for a new device,
plus 15 for a new location, plus 10 for off-hours, clamped to 100. -/
def riskScoreSpec (eventType : String) (details : EventDetails) : Nat :=
  min ((specBaseScoreTable.lookup eventType).getD 30
    + (if (match details.repeated_attempts with
           | some n => decide (n > 5)
           | none => false : Bool) then 20 else 0)
    + (if details.new_device then 15 else 0)
    + (if details.new_location then 15 else 0)
    + (if details.off_hours then 10 else 0)) 100

/-- Number of failed-login audit events from a given IP in the trailing
window (the measure the brute-force sweep groups by). -/
def failedLoginCountByIp (windowStart : Nat) (rows : List AuditRow)
    (ip : Option String) : Nat :=
  (rows.filter (fun r =>
    r.event_type == "auth" && r.action == "login_failure" &&
      windowStart ≤ r.created_at)).countP (fun r => r.ip_address == ip)

/-- Number of login audit events by a given actor in the trailing window
(the measure the off-hours sweep groups by). -/
def loginCountByActor (windowStart : Nat) (rows : List AuditRow)
    (actor : Option String) : Nat :=
  (rows.filter (fun r =>
    r.event_type == "auth" && r.action == "login" &&
      windowStart ≤ r.created_at)).countP (fun r => r.actor_id == actor)

/-- Spec scenario: 11 failed logins from the same IP within the trailing
hour. -/
def elevenFailedLogins : List AuditRow :=
  (List.range 11).map (fun i =>
    { event_type := "auth"
      action := "login_failure"
      ip_address := some ("1.1.1.1")
      created_at := i + 1 })

/-- Four login events by one actor inside the window (a >3-login actor for
the off-hours sweep). -/
def fourLogins : List AuditRow :=
  (List.range 4).map (fun i =>
    { event_type := "auth"
      action := "login"
      actor_id := some ("u")
      created_at := i + 1 })

end SecurityMonitoring

namespace EnhancedAuth

/-- Concrete session for witness runs: active, expires at t=1000,
auto-logout at t=2000. -/
def sessW : Session :=
  { id := 1
    member_id := "u1"
    session_token := "tok"
    is_active := true
    expires_at := 1000
    auto_logout_at := 2000 }

/-- Concrete database holding only `sessW`. -/
def dbW : DB := { sessions := [sessW] }

/-- Concrete identity-verifier oracle resolving only the token of
`sessW`. -/
def guW : String → Option String :=
  fun t => if t == "tok" then some ("u1") else none

/-- Concrete request presenting `sessW`'s token. -/
def reqW : Request := { authHeader := some ("Bearer tok"), ip := "3.3.3.3" }

/-- Concrete session that is past its inactivity deadline (auto-logout at
t=1000) but not yet expired (expires at t=5000). -/
def sessIdle : Session :=
  { id := 1
    member_id := "u1"
    session_token := "tok"
    is_active := true
    expires_at := 5000
    auto_logout_at := 1000 }

/-- Concrete database holding only `sessIdle`. -/
def dbIdle : DB := { sessions := [sessIdle] }

/-- Two concurrently-active sessions of one member, for the
single-session-policy witness. -/
def sessA : Session :=
  { id := 1
    member_id := "u1"
    session_token := "a"
    is_active := true
    expires_at := 9000
    auto_logout_at := 9000 }

/-- Second active session of the same member. -/
def sessB : Session :=
  { id := 2
    member_id := "u1"
    session_token := "b"
    is_active := true
    expires_at := 9000
    auto_logout_at := 9000 }

/-- Concrete database with two active sessions for member u1. -/
def dbMulti : DB := { sessions := [sessA, sessB] }

end EnhancedAuth

/-! Theorems. -/

open SecurityMonitoring EnhancedAuth

/-- Helper: the service base-score table agrees with the spec's finite
mapping (default 30 for unknown event types). -/
theorem baseScoreOf_eq_lookup (e : String) :
    baseScoreOf e = ((specBaseScoreTable.lookup e).getD 30) := by
  simp only [baseScoreOf, specBaseScoreTable, List.lookup]
  (repeat' split) <;> (first | rfl | simp_all)

/-- C2: the event risk score is a pure function — it ignores the context
argument entirely, so equal eventType/details/context always give the
same score — its value is the spec's formula (static table base with
default 30, +20 for repeated_attempts > 5, +15 new device, +15 new
location, +10 off-hours, clamped to 100), and it always lies in
[0, 100]. -/
theorem calculateEventRiskScore_spec (e : String) (d : EventDetails)
    (c c' : EventContext) :
    calculateEventRiskScore e d c = riskScoreSpec e d ∧
    calculateEventRiskScore e d c ≤ 100 ∧
    calculateEventRiskScore e d c = calculateEventRiskScore e d c' := by
  refine ⟨?_, ?_, rfl⟩
  · simp only [calculateEventRiskScore, riskScoreSpec, baseScoreOf_eq_lookup]
  · exact Nat.min_le_right _ _

/-- C6: severity bucketing of a risk score: ≥90 critical, 70–89 high,
50–69 medium, below 50 low (boundaries inclusive on the upper bucket),
and the bucket is monotone in the score. -/
theorem calculateSeverity_buckets (s t : Nat) :
    (90 ≤ s → calculateSeverity s = Severity.critical) ∧
    (70 ≤ s → s < 90 → calculateSeverity s = Severity.high) ∧
    (50 ≤ s → s < 70 → calculateSeverity s = Severity.medium) ∧
    (s < 50 → calculateSeverity s = Severity.low) ∧
    (s ≤ t → severityRank (calculateSeverity s) ≤
      severityRank (calculateSeverity t)) := by
  refine ⟨?_, ?_, ?_, ?_, ?_⟩
  · intro h
    unfold calculateSeverity
    rw [if_pos (by omega)]
  · intro h1 h2
    unfold calculateSeverity
    rw [if_neg (by omega), if_pos (by omega)]
  · intro h1 h2
    unfold calculateSeverity
    rw [if_neg (by omega), if_neg (by omega), if_pos (by omega)]
  · intro h
    unfold calculateSeverity
    rw [if_neg (by omega), if_neg (by omega), if_neg (by omega)]
  · intro hst
    unfold calculateSeverity
    split_ifs <;> simp [severityRank] <;> omega

/-- Witness for C6 at the spec's sample scores: 95 and the boundary 90 are
critical, 75 and 70 high, 55 and 50 medium, 10 low, and rank is monotone
from 55 to 95. -/
theorem calculateSeverity_buckets_witness :
    calculateSeverity 90 = Severity.critical ∧
    calculateSeverity 95 = Severity.critical ∧
    calculateSeverity 70 = Severity.high ∧
    calculateSeverity 75 = Severity.high ∧
    calculateSeverity 50 = Severity.medium ∧
    calculateSeverity 55 = Severity.medium ∧
    calculateSeverity 10 = Severity.low ∧
    severityRank (calculateSeverity 55) ≤ severityRank (calculateSeverity 95) :=
  ⟨(calculateSeverity_buckets 90 90).1 (by decide),
   (calculateSeverity_buckets 95 95).1 (by decide),
   (calculateSeverity_buckets 70 70).2.1 (by decide) (by decide),
   (calculateSeverity_buckets 75 75).2.1 (by decide) (by decide),
   (calculateSeverity_buckets 50 50).2.2.1 (by decide) (by decide),
   (calculateSeverity_buckets 55 55).2.2.1 (by decide) (by decide),
   (calculateSeverity_buckets 10 10).2.2.2.1 (by decide),
   (calculateSeverity_buckets 55 95).2.2.2.2 (by decide)⟩

/-- Helper: the anomaly detector reports at most three anomaly strings. -/
theorem detectBehaviorAnomalies_length_le (b : Baseline)
    (recent : List Activity) :
    (detectBehaviorAnomalies b recent).length ≤ 3 := by
  unfold detectBehaviorAnomalies
  repeat' split <;> simp

/-- C10: the behaviour risk score is bounded by 50 for every baseline and
every recent-activity list (at most 3 anomaly types at 10 points each,
plus at most 20 volume points), both for the scoring function and for the
score analyzeUserBehavior returns. -/
theorem behaviorRiskScore_le_50 (b : Baseline)
    (history recent : List Activity) :
    calculateBehaviorRiskScore (detectBehaviorAnomalies b recent) recent ≤ 50 ∧
    (analyzeUserBehavior history recent).1 ≤ 50 := by
  have key : ∀ (b' : Baseline) (r : List Activity),
      calculateBehaviorRiskScore (detectBehaviorAnomalies b' r) r ≤ 50 := by
    intro b' r
    have hlen := detectBehaviorAnomalies_length_le b' r
    unfold calculateBehaviorRiskScore
    refine le_trans (Nat.min_le_left _ _) ?_
    split <;> omega
  exact ⟨key b recent, key (calculateBehaviorBaseline history) recent⟩

/-- Helper: a session revoked by id has is_active false and the given
reason; sessions with a different id are untouched. -/
theorem revokeSession_mem_id (sid : Nat) (reason : String) (now : Nat)
    (db : DB) :
    ∀ s' ∈ (revokeSession sid reason now db).sessions, s'.id = sid →
      s'.is_active = false ∧ s'.revoked_reason = some reason := by
  intro s' hmem hid
  unfold revokeSession at hmem
  simp only [List.mem_map] at hmem
  obtain ⟨x, _, rfl⟩ := hmem
  by_cases h : x.id = sid
  · simp [h]
  · simp only [beq_iff_eq, h, if_neg] at hid ⊢
    exact absurd hid h

/-- Helper: revocation never touches any session's auto_logout_at. -/
theorem revokeSession_auto_logout (sid : Nat) (reason : String) (now : Nat)
    (db : DB) :
    (revokeSession sid reason now db).sessions.map (fun s => s.auto_logout_at)
      = db.sessions.map (fun s => s.auto_logout_at) := by
  unfold revokeSession
  simp only [List.map_map]
  apply List.map_congr_left
  intro x _
  by_cases h : x.id = sid <;> simp [h]

/-- Helper: the session found by sessionLookup is a row of the database
with matching member, token and active flag. -/
theorem sessionLookup_mem (db : DB) (uid token : String) (s : Session)
    (h : sessionLookup db uid token = some s) :
    s ∈ db.sessions ∧ s.member_id = uid ∧ s.session_token = token ∧
      s.is_active = true := by
  unfold sessionLookup at h
  split at h
  next x heq =>
    obtain rfl := Option.some.inj h
    have hmem : x ∈ db.sessions.filter (fun y =>
        y.member_id == uid && y.session_token == token && y.is_active) := by
      rw [heq]; exact List.mem_singleton.mpr rfl
    have hprop := List.of_mem_filter hmem
    simp only [Bool.and_eq_true, beq_iff_eq] at hprop
    exact ⟨List.mem_of_mem_filter hmem, hprop.1.1, hprop.1.2, hprop.2⟩
  next => exact absurd h (by simp)

/-- C3: when the bearer token resolves, the session row is found active,
and now >= expires_at, the gate responds 401, marks that row
is_active=false with revoked_reason 'expired', extends no session's
auto_logout_at, and leaves the audit log unchanged. -/
theorem requireAuth_expired (getUser : String → Option String)
    (req : Request) (now : Nat) (db : DB) (tok uid : String) (s : Session)
    (htok : parseBearer req.authHeader = some tok)
    (hu : getUser tok = some uid)
    (hs : sessionLookup db uid tok = some s)
    (hexp : s.expires_at ≤ now) :
    (requireAuth getUser req now db).1 = AuthResult.sessionExpired ∧
    statusOf (requireAuth getUser req now db).1 = 401 ∧
    (∃ s' ∈ (requireAuth getUser req now db).2.sessions,
      s'.id = s.id ∧ s'.is_active = false ∧
        s'.revoked_reason = some ("expired")) ∧
    (∀ s' ∈ (requireAuth getUser req now db).2.sessions, s'.id = s.id →
      s'.is_active = false ∧ s'.revoked_reason = some ("expired")) ∧
    (requireAuth getUser req now db).2.sessions.map
        (fun x => x.auto_logout_at)
      = db.sessions.map (fun x => x.auto_logout_at) ∧
    (requireAuth getUser req now db).2.audit = db.audit := by
  have hrun : requireAuth getUser req now db =
      (AuthResult.sessionExpired, revokeSession s.id ("expired") now db) := by
    simp only [requireAuth, htok, hu, hs]
    rw [if_pos hexp]
  rw [hrun]
  refine ⟨rfl, rfl, ?_, revokeSession_mem_id s.id ("expired") now db,
    revokeSession_auto_logout s.id ("expired") now db, rfl⟩
  have hsmem := (sessionLookup_mem db uid tok s hs).1
  unfold revokeSession
  simp only [List.mem_map]
  refine ⟨_, ⟨s, hsmem, rfl⟩, ?_, ?_, ?_⟩ <;> simp

/-- Witness for C3: the concrete run of `reqW` against `dbW` at now=1000
(the expiry instant of `sessW`). -/
theorem requireAuth_expired_witness :
    (parseBearer reqW.authHeader = some ("tok") ∧
      guW ("tok") = some ("u1") ∧
      sessionLookup dbW ("u1") ("tok") = some sessW ∧
      sessW.expires_at ≤ 1000) ∧
    ((requireAuth guW reqW 1000 dbW).1 = AuthResult.sessionExpired ∧
      statusOf (requireAuth guW reqW 1000 dbW).1 = 401 ∧
      (∃ s' ∈ (requireAuth guW reqW 1000 dbW).2.sessions,
        s'.id = sessW.id ∧ s'.is_active = false ∧
          s'.revoked_reason = some ("expired"))) := by
  refine ⟨⟨by rfl, by rfl, by rfl, by decide⟩, ?_⟩
  have h := requireAuth_expired guW reqW 1000 dbW ("tok") ("u1") sessW
    (by rfl) (by rfl) (by rfl) (by decide)
  exact ⟨h.1, h.2.1, h.2.2.1⟩

/-- C4: when the bearer token resolves, the session row is found active,
now < expires_at and now >= auto_logout_at, the gate responds 401 and
revokes the row with revoked_reason 'auto_logout' — never 'expired'. -/
theorem requireAuth_autoLogout (getUser : String → Option String)
    (req : Request) (now : Nat) (db : DB) (tok uid : String) (s : Session)
    (htok : parseBearer req.authHeader = some tok)
    (hu : getUser tok = some uid)
    (hs : sessionLookup db uid tok = some s)
    (hexp : now < s.expires_at)
    (halo : s.auto_logout_at ≤ now) :
    (requireAuth getUser req now db).1 = AuthResult.autoLogout ∧
    statusOf (requireAuth getUser req now db).1 = 401 ∧
    (∃ s' ∈ (requireAuth getUser req now db).2.sessions,
      s'.id = s.id ∧ s'.is_active = false ∧
        s'.revoked_reason = some ("auto_logout")) ∧
    (∀ s' ∈ (requireAuth getUser req now db).2.sessions, s'.id = s.id →
      s'.is_active = false ∧ s'.revoked_reason = some ("auto_logout") ∧
        s'.revoked_reason ≠ some ("expired")) := by
  have hrun : requireAuth getUser req now db =
      (AuthResult.autoLogout,
        logSecurityEvent ("auto_logout") { severity := none } now
          (revokeSession s.id ("auto_logout") now db)) := by
    simp only [requireAuth, htok, hu, hs]
    rw [if_neg (by omega), if_pos halo]
  have hsessions : (logSecurityEvent ("auto_logout") { severity := none } now
      (revokeSession s.id ("auto_logout") now db)).sessions
      = (revokeSession s.id ("auto_logout") now db).sessions := by
    unfold logSecurityEvent
    split <;> rfl
  rw [hrun]
  simp only [hsessions]
  refine ⟨by trivial, by trivial, ?_, ?_⟩
  · have hsmem := (sessionLookup_mem db uid tok s hs).1
    unfold revokeSession
    simp only [List.mem_map]
    refine ⟨_, ⟨s, hsmem, rfl⟩, ?_, ?_, ?_⟩ <;> simp
  · intro s' hmem hid
    have h := revokeSession_mem_id s.id ("auto_logout") now db s' hmem hid
    exact ⟨h.1, h.2, by rw [h.2]; simp⟩

/-- Witness for C4: the concrete run of `reqW` against `dbIdle` at
now=1000 (past `sessIdle`'s auto-logout deadline, before its expiry). -/
theorem requireAuth_autoLogout_witness :
    (parseBearer reqW.authHeader = some ("tok") ∧
      guW ("tok") = some ("u1") ∧
      sessionLookup dbIdle ("u1") ("tok") = some sessIdle ∧
      1000 < sessIdle.expires_at ∧ sessIdle.auto_logout_at ≤ 1000) ∧
    ((requireAuth guW reqW 1000 dbIdle).1 = AuthResult.autoLogout ∧
      (∀ s' ∈ (requireAuth guW reqW 1000 dbIdle).2.sessions,
        s'.id = sessIdle.id →
          s'.is_active = false ∧
            s'.revoked_reason = some ("auto_logout") ∧
            s'.revoked_reason ≠ some ("expired"))) := by
  refine ⟨⟨by rfl, by rfl, by rfl, by decide, by decide⟩, ?_⟩
  have h := requireAuth_autoLogout guW reqW 1000 dbIdle ("tok") ("u1")
    sessIdle (by rfl) (by rfl) (by rfl) (by decide) (by decide)
  exact ⟨h.1, h.2.2.2⟩

/-- Identity-verifier oracle that resolves no token (every identity
resolution fails). -/
def guNone : String → Option String := fun _ => none

/-- Request with no Authorization header. -/
def reqNone : Request := { authHeader := none }

/-- C1 counterexample: two failure paths of the gate return 401 without
writing any audit event.  Against `dbW` at now=1000 the session is
expired: the gate answers 401 (reason sessionExpired) and the audit log
stays empty; with no Authorization header the gate also answers 401 with
the audit log untouched.  This refutes the claim that every failure path
writes at least one audit event before the 401. -/
theorem requireAuth_audit_counterexample :
    ((requireAuth guW reqW 1000 dbW).1 = AuthResult.sessionExpired ∧
      statusOf (requireAuth guW reqW 1000 dbW).1 = 401 ∧
      (requireAuth guW reqW 1000 dbW).2.audit = [] ∧ dbW.audit = []) ∧
    ((requireAuth guW reqNone 0 dbW).1 = AuthResult.missingToken ∧
      statusOf (requireAuth guW reqNone 0 dbW).1 = 401 ∧
      (requireAuth guW reqNone 0 dbW).2.audit = []) := by
  refine ⟨⟨?_, ?_, ?_, ?_⟩, ⟨?_, ?_, ?_⟩⟩ <;> rfl

/-- C1 (amended): the invalid-token, invalid-session and auto-logout
failure paths of the gate each write exactly one audit event, carrying
that category's risk score (40, 50, 10 respectively) — in particular
every token that fails identity resolution writes exactly one
`invalid_token` event — while the missing/malformed-header and
expired-session failure paths return 401 without writing any audit
event. -/
theorem requireAuth_audit_amended (getUser : String → Option String)
    (req : Request) (now : Nat) (db : DB) :
    ((requireAuth getUser req now db).1 = AuthResult.invalidToken →
      (requireAuth getUser req now db).2.audit = db.audit ++
        [{ event_type := "security", action := "invalid_token",
           severity := none, risk_score := 40, created_at := now }]) ∧
    ((requireAuth getUser req now db).1 = AuthResult.invalidSession →
      (requireAuth getUser req now db).2.audit = db.audit ++
        [{ event_type := "security", action := "invalid_session",
           severity := none, risk_score := 50, created_at := now }]) ∧
    ((requireAuth getUser req now db).1 = AuthResult.autoLogout →
      (requireAuth getUser req now db).2.audit = db.audit ++
        [{ event_type := "security", action := "auto_logout",
           severity := none, risk_score := 10, created_at := now }]) ∧
    ((requireAuth getUser req now db).1 = AuthResult.missingToken →
      (requireAuth getUser req now db).2 = db) ∧
    ((requireAuth getUser req now db).1 = AuthResult.sessionExpired →
      (requireAuth getUser req now db).2.audit = db.audit) := by
  unfold requireAuth
  (repeat' split) <;>
    (refine ⟨?_, ?_, ?_, ?_, ?_⟩ <;> intro h <;> first | rfl | simp_all)

/-- Witness for C1 (amended) at a concrete failing identity resolution:
the oracle `guNone` rejects the token, the gate reports invalidToken, and
exactly one `invalid_token` audit event with risk score 40 is
appended. -/
theorem requireAuth_audit_amended_witness :
    (requireAuth guNone reqW 5 dbW).1 = AuthResult.invalidToken ∧
    (requireAuth guNone reqW 5 dbW).2.audit = dbW.audit ++
      [{ event_type := "security", action := "invalid_token",
         severity := none, risk_score := 40, created_at := 5 }] :=
  ⟨by rfl, (requireAuth_audit_amended guNone reqW 5 dbW).1 (by rfl)⟩

/-- Helper: logSecurityEvent never modifies the sessions table. -/
theorem logSecurityEvent_sessions (e : String) (d : LogDetails) (now : Nat)
    (db : DB) : (logSecurityEvent e d now db).sessions = db.sessions := by
  unfold logSecurityEvent
  split <;> rfl

/-- Helper: logSecurityEvent preserves existing audit events. -/
theorem logSecurityEvent_audit_mono (e : String) (d : LogDetails) (now : Nat)
    (db : DB) (a : AuditEvent) (h : a ∈ db.audit) :
    a ∈ (logSecurityEvent e d now db).audit := by
  unfold logSecurityEvent
  split <;> simp [h]

/-- Helper: logSecurityEvent writes an audit event with the logged action
and the severity carried by the details. -/
theorem logSecurityEvent_self_mem (e : String) (d : LogDetails) (now : Nat)
    (db : DB) :
    ∃ a ∈ (logSecurityEvent e d now db).audit,
      a.action = e ∧ a.severity = d.severity := by
  unfold logSecurityEvent
  split <;>
    exact ⟨{ event_type := "security", action := e, severity := d.severity,
             risk_score := calculateRiskScore e d, created_at := now },
           by simp, rfl, rfl⟩

/-- Helper: the IP-change check never modifies the sessions table. -/
theorem ipChangeCheck_sessions (sess : Session) (req : Request) (now : Nat)
    (db : DB) : (ipChangeCheck sess req now db).sessions = db.sessions := by
  unfold ipChangeCheck
  (repeat' split) <;> rfl

/-- Helper: the user-agent check never modifies the sessions table. -/
theorem userAgentCheck_sessions (sess : Session) (req : Request) (now : Nat)
    (db : DB) : (userAgentCheck sess req now db).sessions = db.sessions := by
  unfold userAgentCheck
  (repeat' split) <;> rfl

/-- Helper: the user-agent check preserves existing audit events. -/
theorem userAgentCheck_audit_mono (sess : Session) (req : Request)
    (now : Nat) (db : DB) (a : AuditEvent) (h : a ∈ db.audit) :
    a ∈ (userAgentCheck sess req now db).audit := by
  unfold userAgentCheck
  (repeat' split) <;>
    first | exact h | exact logSecurityEvent_audit_mono _ _ _ _ _ h

/-- Helper: a filter whose matches all share one id has at most one
element when the list's ids are distinct. -/
theorem filter_length_le_one_of_id (l : List Session) (p : Session → Bool)
    (i : Nat) (hn : (l.map (fun s => s.id)).Nodup)
    (h : ∀ s ∈ l, p s = true → s.id = i) :
    (l.filter p).length ≤ 1 := by
  induction l with
  | nil => simp
  | cons a t ih =>
    simp only [List.map_cons, List.nodup_cons] at hn
    by_cases hpa : p a = true
    · have hta : (t.filter p) = [] := by
        by_contra hne
        obtain ⟨x, hx⟩ := List.exists_mem_of_ne_nil _ hne
        have hxt := List.mem_of_mem_filter hx
        have hxp := List.of_mem_filter hx
        have hxi : x.id = i := h x (List.mem_cons_of_mem a hxt) hxp
        have hai : a.id = i := h a (List.mem_cons_self a t) hpa
        exact hn.1 (by
          rw [List.mem_map]
          exact ⟨x, hxt, by rw [hxi, hai]⟩)
      rw [List.filter_cons_of_pos hpa, hta]
      simp
    · rw [List.filter_cons_of_neg (by simpa using hpa)]
      exact ih hn.2 (fun s hs hps => h s (List.mem_cons_of_mem a hs) hps)

/-- Helper: the multi-session check, when more than one active session of
the member exists: a high-severity multiple_active_sessions audit event
is written, every remaining active session of the member is the current
one, every other previously active session is revoked with reason
multiple_sessions_detected, and no session id changes. -/
theorem multiSessionCheck_spec (userId : String) (sess : Session)
    (now : Nat) (db : DB)
    (hmulti : 1 < (db.sessions.filter (fun s =>
      s.member_id == userId && s.is_active)).length) :
    (∃ e ∈ (multiSessionCheck userId sess now db).audit,
      e.action = "multiple_active_sessions" ∧ e.severity = some ("high")) ∧
    (∀ s' ∈ (multiSessionCheck userId sess now db).sessions,
      s'.member_id = userId → s'.is_active = true → s'.id = sess.id) ∧
    (∀ s0 ∈ db.sessions, s0.member_id = userId → s0.is_active = true →
      s0.id ≠ sess.id →
      ∃ s' ∈ (multiSessionCheck userId sess now db).sessions,
        s'.id = s0.id ∧ s'.is_active = false ∧
          s'.revoked_reason = some ("multiple_sessions_detected")) ∧
    ((multiSessionCheck userId sess now db).sessions.map (fun s => s.id)
      = db.sessions.map (fun s => s.id)) := by
  have hrun : multiSessionCheck userId sess now db =
      { logSecurityEvent ("multiple_active_sessions")
          { severity := some ("high") } now db with
        sessions := (logSecurityEvent ("multiple_active_sessions")
          { severity := some ("high") } now db).sessions.map (fun s =>
            if s.member_id == userId && s.is_active && !(s.id == sess.id)
            then
              { s with is_active := false
                       revoked_at := some now
                       revoked_reason := some ("multiple_sessions_detected") }
            else s) } := by
    unfold multiSessionCheck
    rw [if_pos hmulti]
  rw [hrun]
  refine ⟨?_, ?_, ?_, ?_⟩
  · obtain ⟨a, ha, h1, h2⟩ := logSecurityEvent_self_mem
      ("multiple_active_sessions") { severity := some ("high") } now db
    exact ⟨a, ha, h1, h2⟩
  · intro s' hmem hm ha
    rw [logSecurityEvent_sessions] at hmem
    simp only [List.mem_map] at hmem
    obtain ⟨x, _, rfl⟩ := hmem
    by_cases hc : (x.member_id == userId && x.is_active
        && !(x.id == sess.id)) = true
    · rw [if_pos hc] at ha
      simp at ha
    · rw [if_neg hc] at hm ha ⊢
      simp only [Bool.and_eq_true, Bool.not_eq_true', beq_iff_eq,
        beq_eq_false_iff_ne, not_and, ne_eq, not_not] at hc
      exact hc ⟨hm, ha⟩
  · intro s0 hs0 hm ha hid
    refine ⟨{ s0 with
        is_active := false
        revoked_at := some now
        revoked_reason := some ("multiple_sessions_detected") },
      ?_, rfl, rfl, rfl⟩
    simp only [logSecurityEvent_sessions, List.mem_map]
    exact ⟨s0, hs0, by rw [if_pos (by simp [hm, ha, hid])]⟩
  · simp only [logSecurityEvent_sessions, List.map_map]
    apply List.map_congr_left
    intro x _
    dsimp only [Function.comp]
    split <;> rfl

/-- C5: whenever performSecurityChecks finds more than one active session
for the member, it writes a multiple_active_sessions audit event with
severity high, and after the check every session of the member that is
still active is the one used in the current request; every other
previously active session is revoked with reason
multiple_sessions_detected, so (with distinct session ids) at most one
active session of the member remains. -/
theorem performSecurityChecks_single_session (userId : String)
    (sess : Session) (req : Request) (now : Nat) (db : DB)
    (hmulti : 1 < (db.sessions.filter (fun s =>
      s.member_id == userId && s.is_active)).length) :
    (∃ e ∈ (performSecurityChecks userId sess req now db).audit,
      e.action = "multiple_active_sessions" ∧ e.severity = some ("high")) ∧
    (∀ s' ∈ (performSecurityChecks userId sess req now db).sessions,
      s'.member_id = userId → s'.is_active = true → s'.id = sess.id) ∧
    (∀ s0 ∈ db.sessions, s0.member_id = userId → s0.is_active = true →
      s0.id ≠ sess.id →
      ∃ s' ∈ (performSecurityChecks userId sess req now db).sessions,
        s'.id = s0.id ∧ s'.is_active = false ∧
          s'.revoked_reason = some ("multiple_sessions_detected")) ∧
    ((db.sessions.map (fun s => s.id)).Nodup →
      ((performSecurityChecks userId sess req now db).sessions.filter
        (fun s => s.member_id == userId && s.is_active)).length ≤ 1) := by
  have hmulti1 : 1 < ((ipChangeCheck sess req now db).sessions.filter
      (fun s => s.member_id == userId && s.is_active)).length := by
    rw [ipChangeCheck_sessions]
    exact hmulti
  obtain ⟨hev, hrem, hrev, hids⟩ :=
    multiSessionCheck_spec userId sess now (ipChangeCheck sess req now db)
      hmulti1
  unfold performSecurityChecks
  refine ⟨?_, ?_, ?_, ?_⟩
  · obtain ⟨e, he, h1, h2⟩ := hev
    exact ⟨e, userAgentCheck_audit_mono _ _ _ _ e he, h1, h2⟩
  · intro s' hmem
    rw [userAgentCheck_sessions] at hmem
    exact hrem s' hmem
  · intro s0 hs0 hm ha hid
    rw [ipChangeCheck_sessions] at hrev
    obtain ⟨s', hs', hp⟩ := hrev s0 hs0 hm ha hid
    refine ⟨s', ?_, hp⟩
    rw [userAgentCheck_sessions]
    exact hs'
  · intro hn
    rw [userAgentCheck_sessions]
    apply filter_length_le_one_of_id _ _ sess.id
    · rw [hids, ipChangeCheck_sessions]
      exact hn
    · intro s hs hp
      simp only [Bool.and_eq_true, beq_iff_eq] at hp
      exact hrem s hs hp.1 hp.2

/-- Witness for C5: the concrete database `dbMulti` with two active
sessions of member u1; the check run from session `sessA` leaves only
`sessA` active and logs the high-severity event. -/
theorem performSecurityChecks_single_session_witness :
    (1 < (dbMulti.sessions.filter (fun s =>
      s.member_id == ("u1") && s.is_active)).length) ∧
    ((∃ e ∈ (performSecurityChecks ("u1") sessA reqW 7 dbMulti).audit,
      e.action = "multiple_active_sessions" ∧ e.severity = some ("high")) ∧
    (∀ s' ∈ (performSecurityChecks ("u1") sessA reqW 7 dbMulti).sessions,
      s'.member_id = ("u1") → s'.is_active = true → s'.id = sessA.id) ∧
    ((performSecurityChecks ("u1") sessA reqW 7 dbMulti).sessions.filter
      (fun s => s.member_id == ("u1") && s.is_active)).length ≤ 1) := by
  have hmulti : 1 < (dbMulti.sessions.filter (fun s =>
      s.member_id == ("u1") && s.is_active)).length := by decide
  have h := performSecurityChecks_single_session ("u1") sessA reqW 7 dbMulti
    hmulti
  exact ⟨hmulti, h.1, h.2.1, h.2.2.2 (by decide)⟩

/-- Helper: every group in the model of `select(key, count(*)) group(key)`
carries its key's exact row count. -/
theorem groupCounts_mem_spec (key : AuditRow → Option String)
    (rows : List AuditRow) (g : Option String × Nat)
    (h : g ∈ groupCounts key rows) :
    g.1 ∈ rows.map key ∧ g.2 = rows.countP (fun r => key r == g.1) := by
  unfold groupCounts at h
  simp only [List.mem_map, List.mem_dedup] at h
  obtain ⟨a, ha, rfl⟩ := h
  exact ⟨List.mem_map.mpr ha, rfl⟩

/-- Helper: every occurring key appears in the grouped result with its
count. -/
theorem groupCounts_mem_intro (key : AuditRow → Option String)
    (rows : List AuditRow) (k : Option String) (h : k ∈ rows.map key) :
    (k, rows.countP (fun r => key r == k)) ∈ groupCounts key rows := by
  unfold groupCounts
  simp only [List.mem_map, List.mem_dedup]
  exact ⟨k, List.mem_map.mp h, rfl⟩

/-- Helper: grouped keys are pairwise distinct. -/
theorem groupCounts_pairwise (key : AuditRow → Option String)
    (rows : List AuditRow) :
    (groupCounts key rows).Pairwise (fun g h => g.1 ≠ h.1) := by
  unfold groupCounts
  rw [List.pairwise_map]
  exact List.nodup_dedup _

/-- Helper: characterisation of the HAVING-count-threshold filter over a
grouped query: every surviving group is a key with its count above the
threshold, every key above the threshold survives, and keys are pairwise
distinct. -/
theorem flagged_spec (key : AuditRow → Option String) (thr : Nat)
    (rows : List AuditRow) :
    (∀ g ∈ (groupCounts key rows).filter (fun g => thr < g.2),
      g.2 = rows.countP (fun r => key r == g.1) ∧ thr < g.2) ∧
    (∀ k, thr < rows.countP (fun r => key r == k) →
      (k, rows.countP (fun r => key r == k)) ∈
        (groupCounts key rows).filter (fun g => thr < g.2)) ∧
    ((groupCounts key rows).filter (fun g => thr < g.2)).Pairwise
      (fun g h => g.1 ≠ h.1) := by
  refine ⟨?_, ?_, ?_⟩
  · intro g hg
    have hmem := List.mem_of_mem_filter hg
    have hthr := List.of_mem_filter hg
    simp only [decide_eq_true_eq] at hthr
    exact ⟨(groupCounts_mem_spec key rows g hmem).2, hthr⟩
  · intro k hk
    have hpos : 0 < rows.countP (fun r => key r == k) := by omega
    rw [List.countP_pos_iff] at hpos
    obtain ⟨r, hr, hrk⟩ := hpos
    have hkmem : k ∈ rows.map key := by
      rw [List.mem_map]
      exact ⟨r, hr, by simpa using hrk⟩
    apply List.mem_filter.mpr
    exact ⟨groupCounts_mem_intro key rows k hkmem, by simpa using hk⟩
  · exact List.Pairwise.sublist (List.filter_sublist _)
      (groupCounts_pairwise key rows)

/-- C7: the brute-force sweep reports precisely the IPs with more than 10
failed-login audit events in the trailing window — each alert has
severity high, type brute_force_ip and carries the exact failure count;
every over-threshold IP yields an alert; and alerts have pairwise
distinct IPs (exactly one alert per flagged IP). -/
theorem detectBruteForceAttacks_spec (ws now : Nat)
    (rows : List AuditRow) :
    (∀ a ∈ detectBruteForceAttacks ws now rows,
      a.type = "brute_force_ip" ∧ a.severity = Severity.high ∧
      a.detailCount = failedLoginCountByIp ws rows a.detailKey ∧
      10 < failedLoginCountByIp ws rows a.detailKey) ∧
    (∀ ip, 10 < failedLoginCountByIp ws rows ip →
      ∃ a ∈ detectBruteForceAttacks ws now rows,
        a.detailKey = ip ∧
        a.detailCount = failedLoginCountByIp ws rows ip) ∧
    (detectBruteForceAttacks ws now rows).Pairwise
      (fun a b => a.detailKey ≠ b.detailKey) := by
  obtain ⟨hsound, hcompl, hpair⟩ := flagged_spec (fun r => r.ip_address) 10
    (rows.filter (fun r =>
      r.event_type == "auth" && r.action == "login_failure" &&
        ws ≤ r.created_at))
  refine ⟨?_, ?_, ?_⟩
  · intro a ha
    simp only [detectBruteForceAttacks, List.mem_map] at ha
    obtain ⟨g, hg, rfl⟩ := ha
    obtain ⟨hcnt, hthr⟩ := hsound g hg
    exact ⟨rfl, rfl, hcnt, lt_of_lt_of_eq hthr hcnt⟩
  · intro ip h10
    have hmem := hcompl ip h10
    simp only [detectBruteForceAttacks, List.mem_map]
    exact ⟨_, ⟨(ip, failedLoginCountByIp ws rows ip), hmem, rfl⟩, rfl, rfl⟩
  · simp only [detectBruteForceAttacks]
    rw [List.pairwise_map]
    exact hpair

/-- Witness for C7, at the spec's end-to-end scenario: 11 failed logins
from IP 1.1.1.1 inside the trailing window produce exactly one alert for
that IP, with severity high and the exact count 11. -/
theorem detectBruteForceAttacks_spec_witness :
    10 < failedLoginCountByIp 0 elevenFailedLogins (some ("1.1.1.1")) ∧
    (∃ a ∈ detectBruteForceAttacks 0 100 elevenFailedLogins,
      a.detailKey = some ("1.1.1.1") ∧
      a.detailCount = failedLoginCountByIp 0 elevenFailedLogins
        (some ("1.1.1.1"))) ∧
    (detectBruteForceAttacks 0 100 elevenFailedLogins).length = 1 ∧
    (∀ a ∈ detectBruteForceAttacks 0 100 elevenFailedLogins,
      a.severity = Severity.high) := by
  have h10 : 10 < failedLoginCountByIp 0 elevenFailedLogins
      (some ("1.1.1.1")) := by decide
  refine ⟨h10, ?_, by rfl, ?_⟩
  · exact (detectBruteForceAttacks_spec 0 100 elevenFailedLogins).2.1
      (some ("1.1.1.1")) h10
  · intro a ha
    exact ((detectBruteForceAttacks_spec 0 100 elevenFailedLogins).1
      a ha).2.1

/-- C9 counterexample: at hour 22 (i.e. the time range 22:00-22:59) the
off-hours sweep emits no alert even for an actor with more than 3 login
events in the window, because the source condition is
`currentHour > 22`, which is false at 22 — refuting the claim that an
hour of 22 counts as outside 06:00-22:00. -/
theorem detectAccessAnomalies_counterexample :
    detectAccessAnomalies 22 0 5 fourLogins = [] ∧
    3 < loginCountByActor 0 fourLogins (some ("u")) := by
  refine ⟨by rfl, by decide⟩

/-- C9 (amended): the off-hours sweep emits alerts only when the current
hour is < 6 or > 22 (hours 23 and 0-5; an hour of 22, covering
22:00-22:59, counts as inside business hours and emits nothing), and in
the off-hours case it flags exactly the actors with more than 3 login
events in the trailing window, one low-severity alert per actor. -/
theorem detectAccessAnomalies_spec (hour ws now : Nat)
    (rows : List AuditRow) :
    (6 ≤ hour → hour ≤ 22 → detectAccessAnomalies hour ws now rows = []) ∧
    (∀ a ∈ detectAccessAnomalies hour ws now rows,
      a.type = "unusual_access_time" ∧ a.severity = Severity.low ∧
      a.detailCount = loginCountByActor ws rows a.detailKey ∧
      3 < loginCountByActor ws rows a.detailKey ∧
      (hour < 6 ∨ 22 < hour)) ∧
    ((hour < 6 ∨ 22 < hour) →
      ∀ actor, 3 < loginCountByActor ws rows actor →
      ∃ a ∈ detectAccessAnomalies hour ws now rows,
        a.detailKey = actor ∧
        a.detailCount = loginCountByActor ws rows actor) ∧
    (detectAccessAnomalies hour ws now rows).Pairwise
      (fun a b => a.detailKey ≠ b.detailKey) := by
  obtain ⟨hsound, hcompl, hpair⟩ := flagged_spec (fun r => r.actor_id) 3
    (rows.filter (fun r =>
      r.event_type == "auth" && r.action == "login" &&
        ws ≤ r.created_at))
  refine ⟨?_, ?_, ?_, ?_⟩
  · intro h6 h22
    unfold detectAccessAnomalies
    rw [if_neg (by omega)]
  · intro a ha
    by_cases hgate : hour < 6 ∨ hour > 22
    · simp only [detectAccessAnomalies, if_pos hgate, List.mem_map] at ha
      obtain ⟨g, hg, rfl⟩ := ha
      obtain ⟨hcnt, hthr⟩ := hsound g hg
      exact ⟨rfl, rfl, hcnt, lt_of_lt_of_eq hthr hcnt, hgate⟩
    · simp only [detectAccessAnomalies, if_neg hgate] at ha
      exact absurd ha (List.not_mem_nil a)
  · intro hgate actor h3
    have hmem := hcompl actor h3
    simp only [detectAccessAnomalies, if_pos hgate, List.mem_map]
    exact ⟨_, ⟨(actor, loginCountByActor ws rows actor), hmem, rfl⟩,
      rfl, rfl⟩
  · by_cases hgate : hour < 6 ∨ hour > 22
    · simp only [detectAccessAnomalies, if_pos hgate]
      rw [List.pairwise_map]
      exact hpair
    · simp only [detectAccessAnomalies, if_neg hgate]
      exact List.Pairwise.nil

/-- Witness for C9 (amended): at hour 23 the actor with 4 login events is
flagged with its exact count, and at hour 22 (inside) the sweep emits
nothing. -/
theorem detectAccessAnomalies_spec_witness :
    (3 < loginCountByActor 0 fourLogins (some ("u"))) ∧
    (∃ a ∈ detectAccessAnomalies 23 0 5 fourLogins,
      a.detailKey = some ("u") ∧
      a.detailCount = loginCountByActor 0 fourLogins (some ("u"))) ∧
    detectAccessAnomalies 22 0 5 fourLogins = [] := by
  have h3 : 3 < loginCountByActor 0 fourLogins (some ("u")) := by decide
  refine ⟨h3, ?_, ?_⟩
  · exact (detectAccessAnomalies_spec 23 0 5 fourLogins).2.2.1
      (by omega) (some ("u")) h3
  · exact (detectAccessAnomalies_spec 22 0 5 fourLogins).1
      (by omega) (by omega)

/-- C8: against the baseline computed from zero historical audit events,
every recent hour is an unusual hour, every recent IP is a new IP, any
recent activity at all triggers the high-volume flag (the baseline
average is 0), so any activity yields at least the unusual-hours and
high-volume anomalies, and all three anomalies as soon as some recent
event carries an IP. -/
theorem detectBehaviorAnomalies_emptyBaseline (recent : List Activity) :
    unusualHoursOf (calculateBehaviorBaseline []) recent
      = recent.map (fun a => hourOf a.created_at) ∧
    newIPsOf (calculateBehaviorBaseline []) recent
      = (recent.filterMap (fun a => a.ip_address)).dedup ∧
    (recent ≠ [] →
      ("Unusually high activity volume") ∈
        detectBehaviorAnomalies (calculateBehaviorBaseline []) recent) ∧
    (recent ≠ [] →
      2 ≤ (detectBehaviorAnomalies (calculateBehaviorBaseline [])
        recent).length) ∧
    (recent.filterMap (fun a => a.ip_address) ≠ [] →
      (detectBehaviorAnomalies (calculateBehaviorBaseline [])
        recent).length = 3) := by
  have hb : calculateBehaviorBaseline [] =
      { typical_hours := [], typical_days := [], typical_ips := [],
        baselineCount := 0 } := by rfl
  have hhours : unusualHoursOf (calculateBehaviorBaseline []) recent
      = recent.map (fun a => hourOf a.created_at) := by
    rw [hb]
    unfold unusualHoursOf
    simp
  have hips : newIPsOf (calculateBehaviorBaseline []) recent
      = (recent.filterMap (fun a => a.ip_address)).dedup := by
    rw [hb]
    unfold newIPsOf
    simp
  have hvol : recent ≠ [] →
      highVolume (calculateBehaviorBaseline []) recent = true := by
    intro hne
    rw [hb]
    unfold highVolume
    have : 0 < recent.length := List.length_pos.mpr hne
    simp only [decide_eq_true_eq]
    omega
  refine ⟨hhours, hips, ?_, ?_, ?_⟩
  · intro hne
    unfold detectBehaviorAnomalies
    rw [hvol hne, if_pos rfl]
    simp
  · intro hne
    unfold detectBehaviorAnomalies
    rw [hvol hne, if_pos rfl]
    rw [if_pos (by
      rw [hhours]
      simpa using List.length_pos.mpr hne)]
    simp only [List.length_append, List.length_singleton]
    omega
  · intro hne
    have hne' : recent ≠ [] := by
      intro hnil
      rw [hnil] at hne
      exact hne rfl
    unfold detectBehaviorAnomalies
    rw [hvol hne', if_pos rfl]
    rw [if_pos (by
      rw [hhours]
      simpa using List.length_pos.mpr hne')]
    rw [if_pos (by
      rw [hips]
      have : (recent.filterMap (fun a => a.ip_address)).dedup ≠ [] := by
        intro hdnil
        exact hne ((List.dedup_eq_nil _).mp hdnil)
      simpa using List.length_pos.mpr this)]
    rfl

/-- Witness for C8: one recent activity at hour 5 from a fresh IP against
the empty baseline produces all three anomalies. -/
theorem detectBehaviorAnomalies_emptyBaseline_witness :
    (([{ created_at := 18000000, ip_address := some ("2.2.2.2") }] :
        List Activity) ≠ []) ∧
    ("Unusually high activity volume") ∈
      detectBehaviorAnomalies (calculateBehaviorBaseline [])
        [{ created_at := 18000000, ip_address := some ("2.2.2.2") }] ∧
    (detectBehaviorAnomalies (calculateBehaviorBaseline [])
      [{ created_at := 18000000, ip_address := some ("2.2.2.2") }]).length
      = 3 := by
  have h := detectBehaviorAnomalies_emptyBaseline
    [{ created_at := 18000000, ip_address := some ("2.2.2.2") }]
  exact ⟨by decide, h.2.2.1 (by decide), h.2.2.2.2 (by decide)⟩

end Taskly
